import Mathlib

/-!
Shallow embedding of the AI-scheduler core (scheduler service, Gemini AI
service, Google-Calendar conflict detector, notification service, and
completion/migration handler) together with theorems settling the spec
claims about it.

Conventions of the embedding:
* Wall-clock instants (JS `Date.getTime()` values, ISO timestamps once
  parsed) are modelled as `Int` epoch milliseconds; durations stay in the
  units the source uses (minutes where the source holds minutes,
  milliseconds where the source multiplies by 60000).
* JS `x || default` on numbers/strings is modelled by `jsOrInt` /
  `jsOrStr` (0 and "" are falsy); absent JS fields are `Option`.
* JS `Map` objects are association lists with `mapGet` / `mapSet`
  (set replaces in place, preserving insertion order, like `Map.set`).
* `setTimeout` handles are modelled by a registry of armed timers plus a
  log of cancelled timer ids, so that cancel-before-rearm is observable.
-/

namespace AIScheduler

/-- JS `x || d` for an optional number: `0` and absent are falsy. -/
def jsOrInt (x : Option Int) (d : Int) : Int :=
  match x with
  | some v => if v = 0 then d else v
  | none => d

/-- JS `x || d` for an optional string: `""` and absent are falsy. -/
def jsOrStr (x : Option String) (d : String) : String :=
  match x with
  | some s => if s = "" then d else s
  | none => d

/-- Task metadata, from the `Task` interface of the scheduler service. -/
structure TaskMetadata where
  estimated_effort : Int
  progress_percent : Int
  deriving Repr, DecidableEq

/-- The canonical `Task` of the scheduler service (also the shape of
`TaskScheduleItem` in the calendar service, whose fields coincide).
`start`/`end` are ISO timestamps in the source, modelled as epoch
milliseconds. -/
structure Task where
  task_id : String
  name : String
  type : String
  start : Int
  duration_minutes : Int
  «end» : Int
  priority_score : Int
  targets : List String
  fixed : Bool
  notes : Option String
  source : String
  reschedule_policy : String
  metadata : TaskMetadata
  deriving Repr, DecidableEq

/-- `SchedulePayload` of the scheduler service. -/
structure SchedulePayload where
  user_id : String
  date : String
  timezone : String
  tasks : List Task
  generated_at : String
  agent_version : String
  explainability : String
  deriving Repr, DecidableEq

/-- `ScheduleCandidate` of the scheduler service. -/
structure ScheduleCandidate where
  id : String
  schedule : SchedulePayload
  score : Int
  explanation : String
  conflicts : List String
  deriving Repr, DecidableEq

/-- `UserPreferences` of the scheduler service (times-of-day kept as the
"HH:MM" strings of the source; durations in minutes). -/
structure UserPreferences where
  sleep_window_start : String
  sleep_window_end : String
  work_hours_start : String
  work_hours_end : String
  break_duration : Int
  commute_buffer : Int
  preferred_task_duration : Int
  max_consecutive_work : Int
  deriving Repr, DecidableEq

/-- The default `userPreferences` of `SchedulerService`. -/
def defaultUserPreferences : UserPreferences :=
  { sleep_window_start := "22:00", sleep_window_end := "07:00"
  , work_hours_start := "09:00", work_hours_end := "18:00"
  , break_duration := 15, commute_buffer := 30
  , preferred_task_duration := 90, max_consecutive_work := 180 }

/-- Stable insertion step for the fallback packer sort
`sort((a, b) => b.priority_score - a.priority_score)`. -/
def insertByScore (t : Task) : List Task → List Task
  | [] => [t]
  | u :: us =>
      if u.priority_score ≤ t.priority_score then t :: u :: us
      else u :: insertByScore t us

/-- `[...tasks].sort((a, b) => b.priority_score - a.priority_score)`:
a stable descending sort on `priority_score`. -/
def sortByScoreDesc : List Task → List Task
  | [] => []
  | t :: ts => insertByScore t (sortByScoreDesc ts)

/-- The body of the `sortedTasks.map(...)` in `generateFallbackSchedule`: walk
a cursor (`currentTime`, epoch ms) through the list, overwriting the
`start`/`end` of each task with `[cursor, cursor + duration_minutes * 60000)`
and advancing the cursor past the task plus `break_duration` minutes. -/
def allocateSequentially (breakDuration : Int) : Int → List Task → List Task
  | _, [] => []
  | currentTime, t :: ts =>
      let s := currentTime
      let e := s + t.duration_minutes * 60000
      { t with start := s, «end» := e } ::
        allocateSequentially breakDuration (e + breakDuration * 60000) ts

/-- `SchedulerService.generateFallbackSchedule(tasks, date, userId)`.
`workStart` is the epoch-ms value of `new Date(date + "T" +
work_hours.start)` and `nowIso` the `generated_at` stamp; both are
environment inputs the source reads from `Date`. -/
def generateFallbackSchedule (tasks : List Task) (date userId : String)
    (prefs : UserPreferences) (workStart : Int) (nowIso : String) :
    List ScheduleCandidate :=
  let sortedTasks := sortByScoreDesc tasks
  let scheduledTasks := allocateSequentially prefs.break_duration workStart sortedTasks
  [ { id := "fallback_1"
    , schedule :=
      { user_id := userId
      , date := date
      , timezone := "Asia/Kolkata"
      , tasks := scheduledTasks
      , generated_at := nowIso
      , agent_version := "1.0.0"
      , explainability := "Fallback schedule: tasks sorted by priority" }
    , score := 60
    , explanation := "Basic priority-based scheduling (AI unavailable)"
    , conflicts := [] } ]

/-! ## Reasoning collaborator (Gemini AI service)

`GeminiAIService.makeRequest` never throws: a fetch failure or HTTP error
is caught and a canned English apology text is returned instead.
`GeminiAIService.generateSchedule(prompt)` runs `JSON.parse` on that
text; we model the observable outcome of one collaborator call by what
`JSON.parse` would produce on the reply. -/

/-- Outcome of one call to the reasoning collaborator, as seen by
`generateSchedule`: the network failed (`unreachable`), the reply text is
not JSON (`unparseableText`), or `JSON.parse` succeeded with `null`, with
a value lacking a `candidates` array, or with a `candidates` array. -/
inductive GeminiReply where
  | unreachable
  | unparseableText
  | parsedNull
  | parsedNoCandidates
  | parsedCandidates (cs : List ScheduleCandidate)
  deriving Repr, DecidableEq

/-- A parsed JSON value as consumed by the scheduler service: `null`, an
object (or primitive) without a `candidates` member, or an object whose
`candidates` member is an array. -/
inductive GeminiParsed where
  | jsNull
  | objNoCandidates
  | objCandidates (cs : List ScheduleCandidate)
  deriving Repr, DecidableEq

/-- The hard-coded candidate returned by the catch branch of
`generateSchedule`. The JS object literal omits most `schedule` fields (they are
`undefined`); absent string fields are modelled as `""`. -/
def geminiFallbackCandidate : ScheduleCandidate :=
  { id := "fallback"
  , schedule :=
    { user_id := "", date := "", timezone := "", tasks := []
    , generated_at := "", agent_version := ""
    , explainability := "AI service unavailable, using fallback" }
  , score := 0
  , explanation := "Fallback schedule generated due to AI service error"
  , conflicts := [] }

/-- `GeminiAIService.generateSchedule(prompt)`: `JSON.parse` of the raw
reply; on a network error the reply is the canned English error text, so
`JSON.parse` throws and the catch branch returns the hard-coded
`{candidates: [geminiFallbackCandidate]}` object. -/
def geminiGenerateSchedule : GeminiReply → GeminiParsed
  | .unreachable => .objCandidates [geminiFallbackCandidate]
  | .unparseableText => .objCandidates [geminiFallbackCandidate]
  | .parsedNull => .jsNull
  | .parsedNoCandidates => .objNoCandidates
  | .parsedCandidates cs => .objCandidates cs

/-- `SchedulerService.generateScheduleCandidates(tasks, existingEvents,
date, userId)` after the prompt is built: `response.candidates || []`.
Reading `.candidates` on `null` throws a TypeError, which the enclosing
try/catch turns into `generateFallbackSchedule`; an object without the
member yields `undefined`, hence `[]`; an array (even empty) is truthy
and returned as-is. -/
def generateScheduleCandidates (tasks : List Task) (date userId : String)
    (prefs : UserPreferences) (workStart : Int) (nowIso : String)
    (reply : GeminiReply) : List ScheduleCandidate :=
  match geminiGenerateSchedule reply with
  | .jsNull => generateFallbackSchedule tasks date userId prefs workStart nowIso
  | .objNoCandidates => []
  | .objCandidates cs => cs

/-! ## Conflict detector (Google Calendar service) -/

/-- `CalendarEvent` of the calendar service; `dateTime` strings are
modelled as epoch milliseconds. -/
structure CalendarEvent where
  id : String
  summary : String
  description : String
  startDateTime : Int
  startTimeZone : String
  endDateTime : Int
  endTimeZone : String
  status : String
  deriving Repr, DecidableEq

/-- Half-open interval overlap between two tasks:
`start_a < end_b AND end_a > start_b`. -/
def tasksOverlap (a b : Task) : Bool :=
  decide (a.start < b.«end») && decide (a.«end» > b.start)

/-- The overlap test of `detectConflicts`:
`newStart < existingEnd && newEnd > existingStart`. -/
def overlapsEvent (t : Task) (e : CalendarEvent) : Bool :=
  decide (t.start < e.endDateTime) && decide (t.«end» > e.startDateTime)

/-- The conflict string pushed by `detectConflicts` (the source embeds
locale-formatted event times, elided here). -/
def conflictMessage (t : Task) (e : CalendarEvent) : String :=
  "Task \"" ++ t.name ++ "\" conflicts with existing event \"" ++
    e.summary ++ "\""

/-- `GoogleCalendarService.detectConflicts(newSchedule)`: every task of
the candidate is tested against every fetched calendar event (the fetch
itself is external; the event list is a parameter here), and one message
is pushed per overlapping (task, event) pair. Tasks are never tested
against other tasks of the same candidate. -/
def detectConflicts (scheduleTasks : List Task)
    (existingEvents : List CalendarEvent) : List String :=
  (scheduleTasks.map (fun t =>
    (existingEvents.filter (fun e => overlapsEvent t e)).map
      (fun e => conflictMessage t e))).flatten

/-! ## Task normalizer (scheduler service), priority-task branch

`normalizeTasks` receives `any[]` rows; the priority branch reads
`name`, `preferred_time`, `duration`, `priority`, `targets`, `difficulty`
off each row (the caller actually supplies `PriorityTask` objects whose
fields are named differently — `estimatedDuration`, `dueDate`, a targets
array — so several reads come back `undefined` at runtime; the row model
below carries exactly the fields the function reads, each optional, plus
the unread `due_date`). The assigned `priority_score` is
`task.priority || 75`: the raw label *string* when non-empty, else the
number 75 — so the score is a string-or-number union value. -/

/-- A JS string-or-number value, as stored into `priority_score`. -/
inductive JsVal where
  | num (n : Int)
  | str (s : String)
  deriving Repr, DecidableEq

/-- Lexicographic code-unit comparison of two strings, as JS `<`
performs on string operands. -/
def strLtB : List Char → List Char → Bool
  | [], [] => false
  | [], _ :: _ => true
  | _ :: _, [] => false
  | c :: cs, d :: ds =>
      if c < d then true else if d < c then false else strLtB cs ds

/-- JS `>` on such values: number comparison, lexicographic string
comparison, and for mixed operands the string is coerced to a number —
the non-numeric priority labels used here coerce to NaN, and every NaN
comparison is false. -/
def jsGt : JsVal → JsVal → Bool
  | .num a, .num b => decide (a > b)
  | .str a, .str b => strLtB b.data a.data
  | .num _, .str _ => false
  | .str _, .num _ => false

/-- JS `x || d` where `x` may be a string and `d` a number. -/
def jsOrVal (x : Option String) (d : Int) : JsVal :=
  match x with
  | some s => if s = "" then .num d else .str s
  | none => .num d

/-- One row of the priority-tasks input as read by `normalizeTasks`. -/
structure PriorityRow where
  name : Option String
  preferred_time : Option String
  duration : Option Int
  priority : Option String
  due_date : Option String
  targets : Option String
  difficulty : Option Int
  deriving Repr, DecidableEq

/-- Normalizer output; `start`/`end` stay strings here because the
priority branch stores the literal `preferred_time` (default "09:00")
and the empty string, and `priority_score` is the string-or-number
value actually assigned. -/
structure NormTask where
  task_id : String
  name : String
  type : String
  start : String
  duration_minutes : Int
  «end» : String
  priority_score : JsVal
  targets : List String
  fixed : Bool
  source : String
  reschedule_policy : String
  metadata : TaskMetadata
  deriving Repr, DecidableEq

/-- The priority-task arm of `SchedulerService.normalizeTasks`
(`priorityTasks.forEach((task, index) => tasks.push({...}))`). -/
def normalizePriorityTask (index : Nat) (task : PriorityRow) : NormTask :=
  { task_id := "priority_" ++ toString index
  , name := jsOrStr task.name "Priority Task"
  , type := "flexible"
  , start := jsOrStr task.preferred_time "09:00"
  , duration_minutes := jsOrInt task.duration 60
  , «end» := ""
  , priority_score := jsOrVal task.priority 75
  , targets :=
      match task.targets with
      | some s => if s = "" then ["productivity"] else s.splitOn ","
      | none => ["productivity"]
  , fixed := false
  , source := "sheet"
  , reschedule_policy := "push"
  , metadata := { estimated_effort := jsOrInt task.difficulty 50
                , progress_percent := 0 } }

/-! ## Notification service

State of `NotificationService`: the `notifications` map, the `timers`
map (notification id → the id of the last `setTimeout` handle stored for
it), the set of armed-and-not-yet-cancelled timers, a log of cancelled
timer ids (`clearTimeout` calls), and a log of `notifySubscribers`
broadcasts. Timer handles are numbered by a counter. -/

/-- `NotificationAction`; the `payload` is an untyped JS object of which
the service reads only `payload?.minutes` and `payload?.status`. -/
structure NotificationAction where
  id : String
  label : String
  type : String
  payloadMinutes : Option Int
  payloadStatus : Option String
  deriving Repr, DecidableEq

/-- `NotificationConfig`; `scheduledTime` (an ISO string in the source)
is modelled as epoch milliseconds. -/
structure NotificationConfig where
  id : String
  type : String
  title : String
  message : String
  taskId : Option String
  scheduledTime : Int
  delivered : Bool
  actions : Option (List NotificationAction)
  deriving Repr, DecidableEq

/-- One armed `setTimeout` whose callback is
`deliverNotification(notificationId)`, due at `dueAt` epoch ms. -/
structure ArmedTimer where
  timerId : Nat
  dueAt : Int
  notificationId : String
  deriving Repr, DecidableEq

/-- JS `Map.get`. -/
def mapGet {α : Type} (m : List (String × α)) (k : String) : Option α :=
  (m.find? (fun p => p.1 == k)).map (fun p => p.2)

/-- JS `Map.set`: replaces in place, preserving insertion order. -/
def mapSet {α : Type} : List (String × α) → String → α → List (String × α)
  | [], k, v => [(k, v)]
  | (k', v') :: rest, k, v =>
      if k' == k then (k, v) :: rest else (k', v') :: mapSet rest k v

/-- The mutable state of the `NotificationService` singleton, plus the
observation logs described above. -/
structure NotifState where
  notifications : List (String × NotificationConfig)
  timers : List (String × Nat)
  armedTimers : List ArmedTimer
  cancelledTimers : List Nat
  broadcastLog : List NotificationConfig
  nextTimerId : Nat
  deriving Repr, DecidableEq

/-- `NotificationService.deliverNotification(notificationId)`: missing or
already-delivered ids return immediately; otherwise the stored object is
mutated to `delivered = true` and broadcast via `notifySubscribers` (the
browser-Notification / DOM-event tail is presentation-layer I/O with no
effect on this state). -/
def deliverNotification (st : NotifState) (notificationId : String) :
    NotifState :=
  match mapGet st.notifications notificationId with
  | none => st
  | some notification =>
    if notification.delivered then st
    else
      let n := { notification with delivered := true }
      { st with
          notifications := mapSet st.notifications notificationId n
          broadcastLog := st.broadcastLog ++ [n] }

/-- `NotificationService.snoozeNotification(notificationId, minutes)`:
missing ids return immediately; otherwise the outstanding timer (if any)
is cancelled via `clearTimeout`, the notification is reset to
`delivered = false` with `scheduledTime = Date.now() + minutes*60000`,
and a fresh timer is armed for `minutes*60000` ms from now and stored in
the `timers` map. `now` is the `Date.now()` of the snooze action. -/
def snoozeNotification (st : NotifState) (notificationId : String)
    (minutes : Int) (now : Int) : NotifState :=
  match mapGet st.notifications notificationId with
  | none => st
  | some notification =>
    let st1 :=
      match mapGet st.timers notificationId with
      | none => st
      | some existingTimer =>
          { st with
              cancelledTimers := st.cancelledTimers ++ [existingTimer]
              armedTimers :=
                st.armedTimers.filter (fun t => t.timerId != existingTimer) }
    let rescheduled :=
      { notification with
          delivered := false
          scheduledTime := now + minutes * 60000 }
    { st1 with
        notifications := mapSet st1.notifications notificationId rescheduled
        timers := mapSet st1.timers notificationId st1.nextTimerId
        armedTimers := st1.armedTimers ++
          [{ timerId := st1.nextTimerId, dueAt := now + minutes * 60000
           , notificationId := notificationId }]
        nextTimerId := st1.nextTimerId + 1 }

/-- The message chosen by `sendCompletionFeedback`. -/
def feedbackMessage (status : String) : String :=
  if status == "completed" then "Great job! Task completed successfully."
  else if status == "partially_completed" then
    "Task partially completed. Remaining work scheduled for tomorrow."
  else if status == "not_completed" then
    "Task moved to tomorrow\u0027s schedule."
  else ""

/-- `NotificationService.sendCompletionFeedback(data)`: registers a
`system` feedback notification keyed `feedback_<taskId>_<Date.now()>`
and arms a 1-second `setTimeout` delivering it (this raw handle is never
stored in the `timers` map). -/
def sendCompletionFeedback (st : NotifState) (taskId status : String)
    (now : Int) : NotifState :=
  let feedbackId := "feedback_" ++ taskId ++ "_" ++ toString now
  let feedback : NotificationConfig :=
    { id := feedbackId, type := "system", title := "Task Update"
    , message := feedbackMessage status, taskId := some taskId
    , scheduledTime := now, delivered := false, actions := none }
  { st with
      notifications := mapSet st.notifications feedbackId feedback
      armedTimers := st.armedTimers ++
        [{ timerId := st.nextTimerId, dueAt := now + 1000
         , notificationId := feedbackId }]
      nextTimerId := st.nextTimerId + 1 }

/-- `NotificationService.handleNotificationAction(notificationId,
actionId)`: a missing notification or an action id matching none of its
actions returns immediately. A `snooze` action snoozes by
`payload?.minutes || 5`; a `complete` action routes through
`handleTaskCompletion` (whose migration output is modelled separately
below — its only effect on this state is the feedback notification);
`reschedule` only logs; the declared `cancel` kind has no switch case. -/
def handleNotificationAction (st : NotifState)
    (notificationId actionId : String) (now : Int) : NotifState :=
  match mapGet st.notifications notificationId with
  | none => st
  | some notification =>
    match (notification.actions.getD []).find? (fun a => a.id == actionId) with
    | none => st
    | some action =>
      if action.type == "snooze" then
        snoozeNotification st notificationId (jsOrInt action.payloadMinutes 5) now
      else if action.type == "complete" then
        sendCompletionFeedback st (notification.taskId.getD "")
          (jsOrStr action.payloadStatus "completed") now
      else st

/-- `NotificationService.scheduleTaskStartNotification(taskId, taskName,
startTime)`: registers a `task_start` notification due 5 minutes before
`startTime` with snooze/start actions, and arms its delivery after
`max(0, reminderTime - Date.now())`. Returns the notification id. -/
def scheduleTaskStartNotification (st : NotifState)
    (taskId taskName : String) (startTime now : Int) :
    NotifState × String :=
  let notificationId := "start_" ++ taskId
  let reminderTime := startTime - 5 * 60 * 1000
  let startActions : List NotificationAction :=
    [ { id := "snooze", label := "Snooze 5min", type := "snooze",
        payloadMinutes := some 5, payloadStatus := none },
      { id := "start", label := "Start Now", type := "complete",
        payloadMinutes := none, payloadStatus := none } ]
  let notification : NotificationConfig :=
    { id := notificationId, type := "task_start"
    , title := "Task Starting Soon"
    , message := "\"" ++ taskName ++ "\" starts in 5 minutes"
    , taskId := some taskId, scheduledTime := reminderTime
    , delivered := false
    , actions := some startActions }
  let timeUntilNotification := max 0 (reminderTime - now)
  ({ st with
      notifications := mapSet st.notifications notificationId notification
      armedTimers := st.armedTimers ++
        [{ timerId := st.nextTimerId, dueAt := now + timeUntilNotification
         , notificationId := notificationId }]
      timers := mapSet st.timers notificationId st.nextTimerId
      nextTimerId := st.nextTimerId + 1 }, notificationId)

/-! ## Completion and migration handler (notification service) -/

/-- `TaskCompletionData`: an outcome report. `status` is one of
`"completed" | "partially_completed" | "not_completed"`. -/
structure TaskCompletionData where
  taskId : String
  status : String
  actualDuration : Option Int
  remainingMinutes : Option Int
  notes : Option String
  reason : Option String
  deriving Repr, DecidableEq

/-- The object literal built by `moveToIncompleteSheet` (destined for
`googleSheetsService.addIncompleteTask`; the call itself is commented
out in the source, which only logs the record). -/
structure IncompleteTaskRecord where
  id : String
  name : String
  originalDuration : Int
  remainingDuration : Int
  priority : String
  sourceDate : String
  progress : Int
  notes : String
  deriving Repr, DecidableEq

/-- The analytics record stored by `processCompletedTask` via
`storeCompletionData`. -/
structure CompletionLog where
  taskId : String
  completedAtMs : Int
  actualDuration : Option Int
  notes : Option String
  deriving Repr, DecidableEq

/-- `NotificationService.moveToIncompleteSheet(data)`. `nowMs` is
`Date.now()` and `today` the date part of the ISO timestamp. -/
def moveToIncompleteSheet (data : TaskCompletionData) (nowMs : Int)
    (today : String) : IncompleteTaskRecord :=
  { id := "incomplete_" ++ toString nowMs
  , name := "Incomplete: " ++ data.taskId
  , originalDuration := jsOrInt data.actualDuration 60
  , remainingDuration := jsOrInt data.remainingMinutes 60
  , priority := "medium"
  , sourceDate := today
  , progress := if data.status == "partially_completed" then 50 else 0
  , notes := jsOrStr data.notes
      (jsOrStr data.reason "Task needs to be rescheduled") }

/-- `NotificationService.processPartiallyCompletedTask(data)`: migrates
only when `data.remainingMinutes && data.remainingMinutes > 0` (JS
truthiness: `undefined` and `0` are falsy); otherwise nothing happens. -/
def processPartiallyCompletedTask (data : TaskCompletionData)
    (nowMs : Int) (today : String) : Option IncompleteTaskRecord :=
  match data.remainingMinutes with
  | some r => if r ≠ 0 ∧ 0 < r then some (moveToIncompleteSheet data nowMs today) else none
  | none => none

/-- What one `handleTaskCompletion` call produces: the analytics log (on
the `completed` arm), the migrated incomplete-task record (on the
`partially_completed` / `not_completed` arms), and the user-facing
feedback message from `sendCompletionFeedback`. -/
structure CompletionOutcome where
  completionLog : Option CompletionLog
  incompleteRecord : Option IncompleteTaskRecord
  feedback : String
  deriving Repr, DecidableEq

/-- `NotificationService.handleTaskCompletion(completionData)`: dispatch
on `status` (a status matching no case of the switch does nothing), then
always `sendCompletionFeedback`. -/
def handleTaskCompletion (data : TaskCompletionData) (nowMs : Int)
    (today : String) : CompletionOutcome :=
  { completionLog :=
      if data.status == "completed" then
        some { taskId := data.taskId, completedAtMs := nowMs
             , actualDuration := data.actualDuration, notes := data.notes }
      else none
  , incompleteRecord :=
      if data.status == "partially_completed" then
        processPartiallyCompletedTask data nowMs today
      else if data.status == "not_completed" then
        some (moveToIncompleteSheet data nowMs today)
      else none
  , feedback := feedbackMessage data.status }

/-! ## Subscriber broadcast (notification service)

`subscribe(callback)` pushes the callback onto the `subscribers` array
and returns a closure that removes it again via `indexOf` + `splice`.
`notifySubscribers` runs `this.subscribers.forEach(cb => cb(n))` over
the *live* array. We model each callback by the subscriber id it would
unregister during its run (if any), and compute which subscribers
actually get called, following the ECMAScript `forEach` semantics: the
index range is fixed to the array length at the start, each index still
present in the (possibly shrunk) array is visited, and indices beyond
the current length are skipped. -/

/-- One registered listener: its identity and the listener id its
callback unregisters while handling the broadcast (if any). -/
structure Subscriber where
  sid : Nat
  unregisters : Option Nat
  deriving Repr, DecidableEq

/-- The `unsubscribe` closure returned by `subscribe`:
`indexOf` + `splice(index, 1)` — removes the first occurrence, if
present. -/
def removeSubscriber (x : Nat) : List Subscriber → List Subscriber
  | [] => []
  | s :: rest => if s.sid = x then rest else s :: removeSubscriber x rest

/-- The `forEach` loop of `notifySubscribers`. The first argument is the
number of index steps still to take (the index range `0 ≤ k < length` is
fixed when the iteration starts); `k` is the current index. At each step
the callback currently at index `k` (if the shrinking array still has
one) runs, possibly removing a subscriber. Returns the ids of the
callbacks that were invoked, in order. -/
def notifyLoop : Nat → Nat → List Subscriber → List Nat
  | 0, _, _ => []
  | stepsLeft + 1, k, cur =>
    match cur[k]? with
    | none => notifyLoop stepsLeft (k + 1) cur
    | some s =>
        let cur1 :=
          match s.unregisters with
          | some x => removeSubscriber x cur
          | none => cur
        s.sid :: notifyLoop stepsLeft (k + 1) cur1

/-- `NotificationService.notifySubscribers(notification)` restricted to
its control flow: which subscribers run. -/
def notifySubscribers (subscribers : List Subscriber) : List Nat :=
  notifyLoop subscribers.length 0 subscribers

/-! ## Concrete inputs used by counterexamples and witnesses -/

/-- A normalized fixed task: "Algorithms", resolved 13:00-14:00 on the
schedule day (epoch-ms offsets 46800000 and 50400000), duration 60. -/
def algorithmsFixedTask : Task :=
  { task_id := "course_0", name := "Algorithms", type := "fixed"
  , start := 46800000, duration_minutes := 60, «end» := 50400000
  , priority_score := 100, targets := ["attend_class"], fixed := true
  , notes := none, source := "sheet", reschedule_policy := "drop"
  , metadata := { estimated_effort := 100, progress_percent := 0 } }

/-- A flexible task, duration 120, priority score 75, unplaced. -/
def studyFlexibleTask : Task :=
  { task_id := "priority_0", name := "Study", type := "flexible"
  , start := 0, duration_minutes := 120, «end» := 0
  , priority_score := 75, targets := ["productivity"], fixed := false
  , notes := none, source := "sheet", reschedule_policy := "push"
  , metadata := { estimated_effort := 50, progress_percent := 0 } }

/-- Candidate task occupying [0 ms, 6000000 ms). -/
def overlapTaskA : Task :=
  { task_id := "a", name := "A", type := "flexible"
  , start := 0, duration_minutes := 100, «end» := 6000000
  , priority_score := 75, targets := [], fixed := false
  , notes := none, source := "agent", reschedule_policy := "push"
  , metadata := { estimated_effort := 50, progress_percent := 0 } }

/-- Candidate task occupying [3000000 ms, 9000000 ms): overlaps
`overlapTaskA` on [3000000, 6000000). -/
def overlapTaskB : Task :=
  { task_id := "b", name := "B", type := "flexible"
  , start := 3000000, duration_minutes := 100, «end» := 9000000
  , priority_score := 70, targets := [], fixed := false
  , notes := none, source := "agent", reschedule_policy := "push"
  , metadata := { estimated_effort := 50, progress_percent := 0 } }

/-- A priority-tasks row labelled `critical`. -/
def criticalRow : PriorityRow :=
  { name := some "Deep Work", preferred_time := none, duration := some 60
  , priority := some "critical", due_date := some "2025-09-18"
  , targets := some "study", difficulty := some 50 }

/-- The same row with the label `low`: identical due date and targets. -/
def lowRow : PriorityRow :=
  { name := some "Deep Work", preferred_time := none, duration := some 60
  , priority := some "low", due_date := some "2025-09-18"
  , targets := some "study", difficulty := some 50 }

/-- `partially_completed` report: 30 minutes remain, no actual duration
supplied. -/
def reportThirtyRemaining : TaskCompletionData :=
  { taskId := "task_42", status := "partially_completed"
  , actualDuration := none, remainingMinutes := some 30
  , notes := none, reason := none }

/-- `partially_completed` report with `remaining_minutes = 0`. -/
def reportZeroRemaining : TaskCompletionData :=
  { taskId := "task_42", status := "partially_completed"
  , actualDuration := some 90, remainingMinutes := some 0
  , notes := none, reason := none }

/-- A listener whose callback unregisters the listener itself. -/
def subA : Subscriber := { sid := 0, unregisters := some 0 }

/-- A listener whose callback does not unregister anything. -/
def subB : Subscriber := { sid := 1, unregisters := none }

/-- Another passive listener. -/
def subC : Subscriber := { sid := 2, unregisters := none }

/-- A pending `task_start` notification for witnesses. -/
def pendingStartNotification : NotificationConfig :=
  { id := "start_t1", type := "task_start", title := "Task Starting Soon"
  , message := "\"Algorithms\" starts in 5 minutes"
  , taskId := some "t1", scheduledTime := 46500000, delivered := false
  , actions := some
      [ { id := "snooze", label := "Snooze 5min", type := "snooze",
          payloadMinutes := some 5, payloadStatus := none } ] }

/-- Service state holding `pendingStartNotification` with one armed
timer (handle 0) for it. -/
def oneNotificationState : NotifState :=
  { notifications := [("start_t1", pendingStartNotification)]
  , timers := [("start_t1", 0)]
  , armedTimers := [{ timerId := 0, dueAt := 46500000, notificationId := "start_t1" }]
  , cancelledTimers := [], broadcastLog := [], nextTimerId := 1 }

/-- The empty service state. -/
def emptyNotifState : NotifState :=
  { notifications := [], timers := [], armedTimers := []
  , cancelledTimers := [], broadcastLog := [], nextTimerId := 0 }

/-- `algorithmsFixedTask` as the fallback packer re-places it when the
working-hours window starts at 32400000 (09:00). -/
def fallbackPlacedAlgorithms : Task :=
  { algorithmsFixedTask with start := 32400000, «end» := 36000000 }

/-- The one candidate `generateFallbackSchedule` produces for the input
`[algorithmsFixedTask]` with `workStart = 32400000`. -/
def fallbackExampleCandidate : ScheduleCandidate :=
  { id := "fallback_1"
  , schedule :=
    { user_id := "user_1", date := "2025-09-16", timezone := "Asia/Kolkata"
    , tasks := [fallbackPlacedAlgorithms], generated_at := "t"
    , agent_version := "1.0.0"
    , explainability := "Fallback schedule: tasks sorted by priority" }
  , score := 60
  , explanation := "Basic priority-based scheduling (AI unavailable)"
  , conflicts := [] }

/-! ## Helper lemmas -/

/-- Membership under the insertion step of the fallback sort. -/
theorem mem_insertByScore {u t : Task} {l : List Task} :
    u ∈ insertByScore t l ↔ u = t ∨ u ∈ l := by
  induction l with
  | nil => simp [insertByScore]
  | cons v vs ih =>
      by_cases h : v.priority_score ≤ t.priority_score
      · simp [insertByScore, h]
      · simp [insertByScore, h, ih]
        tauto

/-- The fallback sort permutes, in particular preserves membership. -/
theorem mem_sortByScoreDesc {u : Task} {l : List Task} :
    u ∈ sortByScoreDesc l → u ∈ l := by
  induction l with
  | nil => simp [sortByScoreDesc]
  | cons v vs ih =>
      intro h
      rcases mem_insertByScore.mp h with h | h
      · simp [h]
      · simp [ih h]

/-- Every task placed by the sequential allocator starts at or after the
cursor, provided durations and the break are nonnegative. -/
theorem allocate_start_ge (b : Int) (hb : 0 ≤ b) :
    ∀ (ts : List Task) (c : Int),
      (∀ t ∈ ts, 0 ≤ t.duration_minutes) →
      ∀ u ∈ allocateSequentially b c ts, c ≤ u.start := by
  intro ts
  induction ts with
  | nil => intro c _ u hu; simp [allocateSequentially] at hu
  | cons t ts ih =>
      intro c hdur u hu
      have hd : 0 ≤ t.duration_minutes := hdur t (by simp)
      simp only [allocateSequentially, List.mem_cons] at hu
      rcases hu with rfl | hu
      · simp
      · have h1 := ih (c + t.duration_minutes * 60000 + b * 60000)
          (fun x hx => hdur x (by simp [hx])) u hu
        omega

/-- The `end` assigned by the allocator is always `start + duration_minutes * 60000`. -/
theorem allocate_end_eq (b : Int) :
    ∀ (ts : List Task) (c : Int),
      ∀ u ∈ allocateSequentially b c ts,
        u.«end» = u.start + u.duration_minutes * 60000 := by
  intro ts
  induction ts with
  | nil => intro c u hu; simp [allocateSequentially] at hu
  | cons t ts ih =>
      intro c u hu
      simp only [allocateSequentially, List.mem_cons] at hu
      rcases hu with rfl | hu
      · simp
      · exact ih _ u hu

/-- Tasks placed by the sequential allocator are pairwise ordered: each
earlier task ends at or before every later task starts. -/
theorem allocate_pairwise (b : Int) (hb : 0 ≤ b) :
    ∀ (ts : List Task) (c : Int),
      (∀ t ∈ ts, 0 ≤ t.duration_minutes) →
      List.Pairwise (fun a u => a.«end» ≤ u.start)
        (allocateSequentially b c ts) := by
  intro ts
  induction ts with
  | nil => intro c _; simp [allocateSequentially]
  | cons t ts ih =>
      intro c hdur
      have hd : 0 ≤ t.duration_minutes := hdur t (by simp)
      have hdur' : ∀ x ∈ ts, 0 ≤ x.duration_minutes :=
        fun x hx => hdur x (by simp [hx])
      simp only [allocateSequentially]
      refine List.Pairwise.cons ?_ (ih _ hdur')
      intro u hu
      have h1 := allocate_start_ge b hb ts
        (c + t.duration_minutes * 60000 + b * 60000) hdur' u hu
      simp only
      omega

/-- Consecutive tasks placed by the allocator are separated by exactly
the break, and a task that ends before another begins cannot overlap it
in either order. -/
theorem allocate_chain (b : Int) :
    ∀ (ts : List Task) (c : Int),
      List.Chain' (fun a u => u.start = a.«end» + b * 60000)
        (allocateSequentially b c ts) := by
  intro ts
  induction ts with
  | nil => intro c; simp [allocateSequentially]
  | cons t ts ih =>
      intro c
      simp only [allocateSequentially]
      refine List.chain'_cons'.mpr ⟨?_, ih _⟩
      intro y hy
      cases ts with
      | nil => simp [allocateSequentially] at hy
      | cons u us =>
          simp only [allocateSequentially, List.head?_cons,
            Option.mem_def, Option.some.injEq] at hy
          subst hy
          simp

/-- No half-open overlap in either order once one interval ends before
the other starts. -/
theorem not_overlap_of_le {a u : Task} (h : a.«end» ≤ u.start) :
    tasksOverlap a u = false ∧ tasksOverlap u a = false := by
  constructor <;>
    · simp only [tasksOverlap, Bool.and_eq_false_iff, decide_eq_false_iff_not]
      omega

/-- `Map.get` after `Map.set` at the same key. -/
theorem mapGet_mapSet_self {α : Type} (m : List (String × α))
    (k : String) (v : α) : mapGet (mapSet m k v) k = some v := by
  induction m with
  | nil => simp [mapSet, mapGet, List.find?]
  | cons p rest ih =>
      by_cases h : p.1 = k
      · simp [mapSet, mapGet, List.find?, h]
      · simpa [mapSet, mapGet, List.find?, h] using ih

/-- A `mapGet` hit comes from an entry of the underlying list. -/
theorem mapGet_mem {α : Type} {m : List (String × α)} {k : String}
    {v : α} (h : mapGet m k = some v) : (k, v) ∈ m := by
  induction m with
  | nil => simp [mapGet, List.find?] at h
  | cons p rest ih =>
      obtain ⟨a, b⟩ := p
      by_cases hk : a = k
      · subst hk
        simp [mapGet, List.find?] at h
        subst h
        exact List.mem_cons_self _ _
      · have hb : (a == k) = false := beq_false_of_ne hk
        have h1 : mapGet rest k = some v := by
          simpa [mapGet, List.find?, hb] using h
        exact List.mem_cons_of_mem _ (ih h1)

/-! ## Claim theorems -/

/-- C1: for every input task list, date and user id, if the reasoning
collaborator is unreachable, errors, or returns an unparseable reply,
schedule generation (`generateScheduleCandidates`, and hence
`generateDailySchedule`, which returns its result unchanged) still
returns a non-empty list of schedule candidates. -/
theorem fallback_guarantee_nonempty (tasks : List Task)
    (date userId : String) (prefs : UserPreferences) (workStart : Int)
    (nowIso : String) (reply : GeminiReply)
    (h : reply = GeminiReply.unreachable ∨
         reply = GeminiReply.unparseableText) :
    generateScheduleCandidates tasks date userId prefs workStart nowIso
      reply ≠ [] := by
  rcases h with h | h <;> subst h <;>
    simp [generateScheduleCandidates, geminiGenerateSchedule]

/-- C1 witness: with the collaborator unreachable, generation on a
concrete input yields a non-empty candidate list. -/
theorem fallback_guarantee_nonempty_witness :
    (GeminiReply.unreachable = GeminiReply.unreachable ∨
     GeminiReply.unreachable = GeminiReply.unparseableText) ∧
    generateScheduleCandidates [algorithmsFixedTask] "2025-09-16"
      "user_1" defaultUserPreferences 32400000 "t"
      GeminiReply.unreachable ≠ [] :=
  ⟨Or.inl rfl,
   fallback_guarantee_nonempty [algorithmsFixedTask] "2025-09-16"
     "user_1" defaultUserPreferences 32400000 "t"
     GeminiReply.unreachable (Or.inl rfl)⟩

/-- C2 counterexample: the fallback packer does not keep the normalized
times of a fixed task. "Algorithms" is `kind=fixed` with normalized interval
[46800000, 50400000) (13:00-14:00), yet the only candidate places it at
[32400000, 36000000) — the working-hours start 09:00 — which differs
from its normalized value. -/
theorem fixed_task_moved_by_fallback :
    algorithmsFixedTask.fixed = true ∧
    algorithmsFixedTask.start = 46800000 ∧
    algorithmsFixedTask.«end» = 50400000 ∧
    (generateFallbackSchedule [algorithmsFixedTask] "2025-09-16" "user_1"
        defaultUserPreferences 32400000 "t").map
      (fun c => c.schedule.tasks.map (fun t => (t.start, t.«end»))) =
      [[(32400000, 36000000)]] ∧
    (32400000 : Int) ≠ 46800000 := by
  decide

/-- C2 amended: in every candidate produced by the fallback packer, all
tasks — `kind=fixed` ones included — have their `start`/`end` overwritten
by sequential allocation: each task satisfies
`end = start + duration_minutes * 60000`, consecutive tasks are separated
by exactly the break, and the first task starts at the working-hours
start; the normalized `start`/`end` of fixed tasks are not preserved. -/
theorem fallback_allocates_sequentially (tasks : List Task)
    (date userId : String) (prefs : UserPreferences) (workStart : Int)
    (nowIso : String) :
    ∀ cand ∈ generateFallbackSchedule tasks date userId prefs workStart
        nowIso,
      (∀ t ∈ cand.schedule.tasks,
        t.«end» = t.start + t.duration_minutes * 60000) ∧
      List.Chain'
        (fun a u => u.start = a.«end» + prefs.break_duration * 60000)
        cand.schedule.tasks ∧
      (∀ y ∈ cand.schedule.tasks.head?, y.start = workStart) := by
  intro cand hcand
  simp only [generateFallbackSchedule, List.mem_singleton] at hcand
  subst hcand
  refine ⟨?_, ?_, ?_⟩
  · intro t ht
    exact allocate_end_eq prefs.break_duration _ workStart t ht
  · exact allocate_chain prefs.break_duration _ workStart
  · intro y hy
    cases hs : sortByScoreDesc tasks with
    | nil => simp [hs, allocateSequentially] at hy
    | cons u us =>
        simp only [hs, allocateSequentially, List.head?_cons,
          Option.mem_def, Option.some.injEq] at hy
        subst hy
        rfl

/-- C2 amended witness: on the one-fixed-task input, the placed task of
the only candidate satisfies the sequential-allocation description: its
interval is duration-consistent and starts at the working-hours start. -/
theorem fallback_allocates_sequentially_witness :
    fallbackPlacedAlgorithms.«end» =
      fallbackPlacedAlgorithms.start +
        fallbackPlacedAlgorithms.duration_minutes * 60000 ∧
    fallbackPlacedAlgorithms.start = 32400000 := by
  have h := fallback_allocates_sequentially [algorithmsFixedTask]
    "2025-09-16" "user_1" defaultUserPreferences 32400000 "t"
    fallbackExampleCandidate (by decide)
  exact ⟨h.1 fallbackPlacedAlgorithms (by decide),
         h.2.2 fallbackPlacedAlgorithms (by decide)⟩

/-- C3: every candidate produced by the fallback packer has an empty
`conflicts` list and no two distinct placed tasks overlap (half-open
intervals, in either order), for inputs satisfying the Task data-model
invariant `duration_minutes > 0` (weakened to `0 ≤`) and a nonnegative
break preference (the service default is 15). -/
theorem fallback_no_overlap (tasks : List Task) (date userId : String)
    (prefs : UserPreferences) (workStart : Int) (nowIso : String)
    (hdur : ∀ t ∈ tasks, 0 ≤ t.duration_minutes)
    (hbreak : 0 ≤ prefs.break_duration) :
    ∀ cand ∈ generateFallbackSchedule tasks date userId prefs workStart
        nowIso,
      cand.conflicts = [] ∧
      List.Pairwise
        (fun a u => tasksOverlap a u = false ∧ tasksOverlap u a = false)
        cand.schedule.tasks := by
  intro cand hcand
  simp only [generateFallbackSchedule, List.mem_singleton] at hcand
  subst hcand
  refine ⟨rfl, ?_⟩
  have hdur' : ∀ t ∈ sortByScoreDesc tasks, 0 ≤ t.duration_minutes :=
    fun t ht => hdur t (mem_sortByScoreDesc ht)
  exact (allocate_pairwise prefs.break_duration hbreak
    (sortByScoreDesc tasks) workStart hdur').imp
    (fun h => not_overlap_of_le h)

/-- C3 witness: on a concrete two-task input the only fallback candidate
has no conflicts and pairwise non-overlapping tasks. -/
theorem fallback_no_overlap_witness :
    (∀ t ∈ [algorithmsFixedTask, studyFlexibleTask],
      0 ≤ t.duration_minutes) ∧
    (0 : Int) ≤ defaultUserPreferences.break_duration ∧
    ∀ cand ∈ generateFallbackSchedule
        [algorithmsFixedTask, studyFlexibleTask] "2025-09-16" "user_1"
        defaultUserPreferences 32400000 "t",
      cand.conflicts = [] ∧
      List.Pairwise
        (fun a u => tasksOverlap a u = false ∧ tasksOverlap u a = false)
        cand.schedule.tasks :=
  ⟨by decide, by decide,
   fallback_no_overlap [algorithmsFixedTask, studyFlexibleTask]
     "2025-09-16" "user_1" defaultUserPreferences 32400000 "t"
     (by decide) (by decide)⟩

/-- Filtering overlap over the pairs `(t, e)` built from one task counts
exactly the events overlapping that task. -/
theorem length_filter_pairs (t : Task) (es : List CalendarEvent) :
    ((es.map (fun e => (t, e))).filter
        (fun p => overlapsEvent p.1 p.2)).length =
      (es.filter (fun e => overlapsEvent t e)).length := by
  induction es with
  | nil => rfl
  | cons e es ih => by_cases h : overlapsEvent t e <;> simp [h, ih]

/-- C4 counterexample: `detectConflicts` does not test tasks of the same
candidate against each other. `overlapTaskA` and `overlapTaskB` overlap
on [3000000, 6000000) under the half-open test, yet with no external
events the detector reports nothing. -/
theorem detect_conflicts_misses_task_pair :
    tasksOverlap overlapTaskA overlapTaskB = true ∧
    detectConflicts [overlapTaskA, overlapTaskB] [] = [] := by
  decide

/-- C4 amended: `detectConflicts` tests the half-open overlap
(`start_a < end_b AND end_a > start_b`) of every task in the candidate
against every external busy interval only — tasks of the same candidate
are never compared with each other — and reports one conflict entry per
colliding (task, event) pair; with no external events it reports
nothing, whatever the tasks. -/
theorem detect_conflicts_events_only (scheduleTasks : List Task)
    (existingEvents : List CalendarEvent) :
    (detectConflicts scheduleTasks existingEvents).length =
      ((scheduleTasks.flatMap
          (fun t => existingEvents.map (fun e => (t, e)))).filter
        (fun p => overlapsEvent p.1 p.2)).length ∧
    detectConflicts scheduleTasks [] = [] := by
  constructor
  · induction scheduleTasks with
    | nil => rfl
    | cons t ts ih =>
        simp only [detectConflicts, List.map_cons, List.flatten_cons,
          List.flatMap_cons, List.filter_append, List.length_append,
          List.length_map, length_filter_pairs] at ih ⊢
        omega
  · induction scheduleTasks with
    | nil => rfl
    | cons t ts ih => simp [detectConflicts]

/-- C5: delivering a pending notification flips `delivered` from false
to true and broadcasts it exactly once (the broadcast log grows by one
entry); delivering it again afterwards is a no-op, so within one arm
cycle the false-to-true transition and the broadcast happen exactly
once. -/
theorem deliver_at_most_once (st : NotifState) (notificationId : String)
    (n : NotificationConfig)
    (hn : mapGet st.notifications notificationId = some n)
    (hd : n.delivered = false) :
    mapGet (deliverNotification st notificationId).notifications
        notificationId = some { n with delivered := true } ∧
    (deliverNotification st notificationId).broadcastLog =
      st.broadcastLog ++ [{ n with delivered := true }] ∧
    deliverNotification (deliverNotification st notificationId)
        notificationId = deliverNotification st notificationId := by
  have e : deliverNotification st notificationId =
      { st with
          notifications := mapSet st.notifications notificationId
            { n with delivered := true }
          broadcastLog := st.broadcastLog ++
            [{ n with delivered := true }] } := by
    simp [deliverNotification, hn, hd]
  refine ⟨?_, ?_, ?_⟩
  · rw [e]
    exact mapGet_mapSet_self _ _ _
  · rw [e]
  · rw [e]
    simp [deliverNotification, mapGet_mapSet_self]

/-- C5 witness: on the concrete one-notification state, delivery flips
the flag, logs one broadcast, and redelivery is a no-op. -/
theorem deliver_at_most_once_witness :
    mapGet (deliverNotification oneNotificationState
        "start_t1").notifications "start_t1" =
      some { pendingStartNotification with delivered := true } ∧
    (deliverNotification oneNotificationState "start_t1").broadcastLog =
      [{ pendingStartNotification with delivered := true }] ∧
    deliverNotification
        (deliverNotification oneNotificationState "start_t1")
        "start_t1" =
      deliverNotification oneNotificationState "start_t1" :=
  deliver_at_most_once oneNotificationState "start_t1"
    pendingStartNotification (by decide) (by decide)

/-- C7: snoozing a pending notification by `minutes` cancels the
outstanding timer for that id (the cancelled handle never survives among
the armed timers), resets `delivered` to false, sets `scheduledTime` to
`now + minutes * 60000` — computed from the own timestamp `now` of the
snooze action, not from the original scheduled time — and arms a fresh
timer due at exactly that instant, recorded in the timers map.
`hfresh` is the service invariant that stored timer handles come from
earlier values of the handle counter. -/
theorem snooze_reschedules (st : NotifState) (notificationId : String)
    (minutes now : Int) (n : NotificationConfig)
    (hn : mapGet st.notifications notificationId = some n)
    (_hpending : n.delivered = false)
    (hfresh : ∀ p ∈ st.timers, p.2 < st.nextTimerId) :
    (∀ tid, mapGet st.timers notificationId = some tid →
      tid ∈ (snoozeNotification st notificationId minutes
        now).cancelledTimers ∧
      ∀ t ∈ (snoozeNotification st notificationId minutes
          now).armedTimers, t.timerId ≠ tid) ∧
    mapGet (snoozeNotification st notificationId minutes
        now).notifications notificationId =
      some { n with delivered := false, scheduledTime := now + minutes * 60000 } ∧
    mapGet (snoozeNotification st notificationId minutes now).timers
        notificationId = some st.nextTimerId ∧
    ({ timerId := st.nextTimerId, dueAt := now + minutes * 60000
     , notificationId := notificationId } : ArmedTimer) ∈
      (snoozeNotification st notificationId minutes now).armedTimers := by
  cases hmt : mapGet st.timers notificationId with
  | none =>
      have e : snoozeNotification st notificationId minutes now =
          { st with
              notifications := mapSet st.notifications notificationId
                { n with delivered := false, scheduledTime := now + minutes * 60000 }
              timers := mapSet st.timers notificationId st.nextTimerId
              armedTimers := st.armedTimers ++
                [{ timerId := st.nextTimerId
                 , dueAt := now + minutes * 60000
                 , notificationId := notificationId }]
              nextTimerId := st.nextTimerId + 1 } := by
        simp [snoozeNotification, hn, hmt]
      refine ⟨?_, ?_, ?_, ?_⟩
      · intro tid htid
        exact Option.noConfusion htid
      · rw [e]
        exact mapGet_mapSet_self _ _ _
      · rw [e]
        exact mapGet_mapSet_self _ _ _
      · rw [e]
        simp
  | some tid0 =>
      have hlt : tid0 < st.nextTimerId :=
        hfresh (notificationId, tid0) (mapGet_mem hmt)
      have e : snoozeNotification st notificationId minutes now =
          { st with
              notifications := mapSet st.notifications notificationId
                { n with delivered := false, scheduledTime := now + minutes * 60000 }
              timers := mapSet st.timers notificationId st.nextTimerId
              armedTimers :=
                st.armedTimers.filter (fun t => t.timerId != tid0) ++
                [{ timerId := st.nextTimerId
                 , dueAt := now + minutes * 60000
                 , notificationId := notificationId }]
              cancelledTimers := st.cancelledTimers ++ [tid0]
              nextTimerId := st.nextTimerId + 1 } := by
        simp [snoozeNotification, hn, hmt]
      refine ⟨?_, ?_, ?_, ?_⟩
      · intro tid htid
        obtain rfl := Option.some.inj htid
        constructor
        · rw [e]
          simp
        · intro t ht
          rw [e] at ht
          simp only [List.mem_append, List.mem_filter,
            List.mem_singleton] at ht
          rcases ht with ⟨_, ht⟩ | rfl
          · simpa using ht
          · simp only
            omega
      · rw [e]
        exact mapGet_mapSet_self _ _ _
      · rw [e]
        exact mapGet_mapSet_self _ _ _
      · rw [e]
        simp

/-- C7 witness: snoozing the concrete pending notification by 5 minutes
at `now = 46500000` cancels handle 0, resets `delivered`, reschedules to
`46500000 + 300000`, and arms timer 1 for that instant. -/
theorem snooze_reschedules_witness :
    (0 : Nat) ∈ (snoozeNotification oneNotificationState "start_t1" 5
      46500000).cancelledTimers ∧
    mapGet (snoozeNotification oneNotificationState "start_t1" 5
        46500000).notifications "start_t1" =
      some { pendingStartNotification with delivered := false, scheduledTime := 46500000 + 5 * 60000 } ∧
    mapGet (snoozeNotification oneNotificationState "start_t1" 5
        46500000).timers "start_t1" = some 1 ∧
    ({ timerId := 1, dueAt := 46500000 + 5 * 60000
     , notificationId := "start_t1" } : ArmedTimer) ∈
      (snoozeNotification oneNotificationState "start_t1" 5
        46500000).armedTimers := by
  have h := snooze_reschedules oneNotificationState "start_t1" 5 46500000
    pendingStartNotification (by decide) (by decide) (by decide)
  exact ⟨(h.1 0 (by decide)).1, h.2.1, h.2.2.1, h.2.2.2⟩

/-- C10: a notification id absent from the registry makes
`handleNotificationAction`, `snoozeNotification` and
`deliverNotification` return the state unchanged (registry, timers map,
armed timers, subscribers/broadcast log all untouched, and — being total
Lean functions — nothing is thrown); an action id matching no action of a
found notification is likewise silently ignored. -/
theorem missing_id_noop (st : NotifState)
    (notificationId actionId : String) (minutes now : Int) :
    (mapGet st.notifications notificationId = none →
      handleNotificationAction st notificationId actionId now = st ∧
      snoozeNotification st notificationId minutes now = st ∧
      deliverNotification st notificationId = st) ∧
    (∀ n, mapGet st.notifications notificationId = some n →
      (n.actions.getD []).find? (fun a => a.id == actionId) = none →
      handleNotificationAction st notificationId actionId now = st) := by
  constructor
  · intro h
    refine ⟨?_, ?_, ?_⟩ <;>
      simp [handleNotificationAction, snoozeNotification,
        deliverNotification, h]
  · intro n hn hfind
    simp [handleNotificationAction, hn, hfind]

/-- C10 witness: on concrete states, an unknown id and an unknown action
id are no-ops. -/
theorem missing_id_noop_witness :
    (handleNotificationAction emptyNotifState "ghost" "snooze" 0 =
      emptyNotifState ∧
     snoozeNotification emptyNotifState "ghost" 5 0 = emptyNotifState ∧
     deliverNotification emptyNotifState "ghost" = emptyNotifState) ∧
    handleNotificationAction oneNotificationState "start_t1"
      "does_not_exist" 0 = oneNotificationState := by
  refine ⟨?_, ?_⟩
  · exact (missing_id_noop emptyNotifState "ghost" "snooze" 5 0).1
      (by decide)
  · exact (missing_id_noop oneNotificationState "start_t1"
      "does_not_exist" 5 0).2 pendingStartNotification (by decide)
      (by decide)

/-- C6 counterexample: for a `partially_completed` report with
`remaining_minutes = 30` and no `actual_duration`, the produced record
has `original_duration = 60` (the JS `|| 60` default), not
`remaining_minutes = 30` as claimed; and for `remaining_minutes = 0` the
report is *not* treated as completed: no incomplete record is produced
and no completion log is stored either. -/
theorem migration_defaults_differ :
    (handleTaskCompletion reportThirtyRemaining 1000
        "2025-09-16").incompleteRecord.map
      IncompleteTaskRecord.originalDuration = some 60 ∧
    (60 : Int) ≠ 30 ∧
    (handleTaskCompletion reportZeroRemaining 1000
        "2025-09-16").incompleteRecord = none ∧
    (handleTaskCompletion reportZeroRemaining 1000
        "2025-09-16").completionLog = none := by
  decide

/-- C6 amended: for a `partially_completed` report with
`remaining_minutes = R > 0`, the handler constructs an incomplete-task
record with `remaining_duration = R`,
`original_duration = actual_duration` when that is present and non-zero
and 60 otherwise, `progress = 50`, and `source_date = today`; if
`remaining_minutes` is 0 or absent, no incomplete-task record is
produced and the completed-task path is not taken (no completion log) —
only the partial-completion feedback is emitted. -/
theorem remaining_work_migration (data : TaskCompletionData)
    (nowMs : Int) (today : String)
    (hst : data.status = "partially_completed") :
    (∀ R : Int, data.remainingMinutes = some R → 0 < R →
      (handleTaskCompletion data nowMs today).incompleteRecord =
        some { id := "incomplete_" ++ toString nowMs
             , name := "Incomplete: " ++ data.taskId
             , originalDuration := jsOrInt data.actualDuration 60
             , remainingDuration := R
             , priority := "medium"
             , sourceDate := today
             , progress := 50
             , notes := jsOrStr data.notes
                 (jsOrStr data.reason "Task needs to be rescheduled") }) ∧
    ((data.remainingMinutes = none ∨ data.remainingMinutes = some 0) →
      (handleTaskCompletion data nowMs today).incompleteRecord = none ∧
      (handleTaskCompletion data nowMs today).completionLog = none ∧
      (handleTaskCompletion data nowMs today).feedback =
        feedbackMessage "partially_completed") := by
  constructor
  · intro R hR hpos
    have hne : R ≠ 0 := by omega
    simp [handleTaskCompletion, hst, processPartiallyCompletedTask, hR,
      hne, hpos, moveToIncompleteSheet, jsOrInt]
  · intro h
    rcases h with h | h <;>
      simp [handleTaskCompletion, hst, processPartiallyCompletedTask, h]

/-- C6 amended witness: the concrete reports instantiate both halves. -/
theorem remaining_work_migration_witness :
    reportThirtyRemaining.status = "partially_completed" ∧
    (handleTaskCompletion reportThirtyRemaining 1000
        "2025-09-16").incompleteRecord =
      some { id := "incomplete_1000"
           , name := "Incomplete: task_42"
           , originalDuration := 60
           , remainingDuration := 30
           , priority := "medium"
           , sourceDate := "2025-09-16"
           , progress := 50
           , notes := "Task needs to be rescheduled" } ∧
    (handleTaskCompletion reportZeroRemaining 1000
        "2025-09-16").incompleteRecord = none := by
  refine ⟨rfl, ?_, ?_⟩
  · have h := (remaining_work_migration reportThirtyRemaining 1000
      "2025-09-16" rfl).1 30 rfl (by decide)
    simpa using h
  · exact ((remaining_work_migration reportZeroRemaining 1000
      "2025-09-16" rfl).2 (Or.inr rfl)).1

/-- C8: the normalizer does not compute
`priority_weight(label) * 2 + deadline_urgency + target_weight`; it
assigns `task.priority || 75`, i.e. the raw label *string* itself when
non-empty. Two rows identical in due date and targets but labelled
`critical` and `low` receive the scores `"critical"` and `"low"`, and
the score of the higher-label task is not greater (JS compares the strings
lexicographically: `"critical" > "low"` is false). -/
theorem priority_score_is_label_string :
    criticalRow.due_date = lowRow.due_date ∧
    criticalRow.targets = lowRow.targets ∧
    (normalizePriorityTask 0 criticalRow).priority_score =
      JsVal.str "critical" ∧
    (normalizePriorityTask 1 lowRow).priority_score = JsVal.str "low" ∧
    jsGt (normalizePriorityTask 0 criticalRow).priority_score
      (normalizePriorityTask 1 lowRow).priority_score = false := by
  decide

/-- C9: with three listeners [A, B, C] where the callback of A
unregisters A itself, the broadcast invokes A and C but skips B — `forEach` over the
live array together with `splice` shifts C into the slot of B after index 0
runs, so index 1 then reads C. No error is thrown (the loop is total),
but a listener subscribed when the broadcast began is skipped,
contradicting the requirement. -/
theorem unsubscribe_during_broadcast_skips :
    notifySubscribers [subA, subB, subC] = [0, 2] ∧
    subB.sid ∉ notifySubscribers [subA, subB, subC] := by
  decide

end AIScheduler
